import Mathlib

/-!
Verification development for `webserver.py`, a minimal HTTP/1.1 server written
from scratch in Python.  The file shallowly embeds the server's connection
framing, request parsing, response serialization and statistics bookkeeping as
executable Lean definitions, and proves properties about them.

Modelling conventions:
* Python `bytes` values are lists of naturals (`ByteStr`); Python `str` values
  are Lean `String`s.
* The socket is modelled as a script of receive events (`RecvEvent`): a data
  chunk (an empty chunk is how `recv` reports that the peer closed), a timeout
  exception, or any other I/O exception.  `recv(k)` consumes at most `k` bytes
  of the next chunk, leaving the remainder of the chunk on the socket.
* Read loops are written with an explicit fuel argument so that all
  definitions are structurally recursive and kernel-computable; the public
  wrappers supply fuel that is large enough for every run that terminates,
  and a distinguished `blocked` outcome stands for a call that never returns.
* Wall-clock durations are modelled as exact rationals, and the formatted
  `Date`/`Expires` strings produced by `time.strftime` are passed in as
  opaque string parameters.
-/

/-- Bytes are modelled as natural numbers (always below 256 in practice). -/
abbrev Byte := Nat

/-- Python `bytes` values are lists of bytes. -/
abbrev ByteStr := List Byte

/-- Locate the first occurrence of the pattern `sep` inside a list, returning
the parts before and after it.  The fuel argument is instantiated with the
length of the scanned list, which is enough for any non-empty `sep`. -/
def findSepFuel [DecidableEq α] (sep : List α) : Nat → List α → Option (List α × List α)
  | 0, _ => none
  | fuel + 1, l =>
    match l with
    | [] => none
    | c :: cs =>
      if sep.isPrefixOf l then some ([], l.drop sep.length) else
      match findSepFuel sep fuel cs with
      | some (pre, post) => some (c :: pre, post)
      | none => none

/-- First-occurrence search used to model Python's `in`, `split(sep, 1)` and
`bytes.split(sep, 1)`. -/
def findSepL [DecidableEq α] (sep l : List α) : Option (List α × List α) :=
  findSepFuel sep l.length l

/-- Split a list on every occurrence of a (non-empty) separator, modelling
Python's `str.split(sep)`.  Fuel-driven structural recursion. -/
def splitSepFuel [DecidableEq α] (sep : List α) : Nat → List α → List α → List (List α)
  | 0, l, acc => [acc.reverse ++ l]
  | _ + 1, [], acc => [acc.reverse]
  | fuel + 1, c :: cs, acc =>
    if sep.isPrefixOf (c :: cs) then
      acc.reverse :: splitSepFuel sep fuel ((c :: cs).drop sep.length) []
    else splitSepFuel sep fuel cs (c :: acc)

/-- Python `str.split(sep)` over raw lists. -/
def splitSepList [DecidableEq α] (sep l : List α) : List (List α) :=
  splitSepFuel sep l.length l []

/-- Continuation byte of a UTF-8 sequence. -/
abbrev isContB (b : Byte) : Prop := 0x80 ≤ b ∧ b ≤ 0xBF

/-- Valid two-byte UTF-8 sequence head/continuation. -/
abbrev twoOk (b b1 : Byte) : Prop := 0xC2 ≤ b ∧ b ≤ 0xDF ∧ isContB b1

/-- Valid first continuation for a three-byte UTF-8 lead byte (excludes
overlong encodings and surrogates, as CPython's decoder does). -/
abbrev cont3 (b b1 : Byte) : Prop :=
  (b = 0xE0 ∧ 0xA0 ≤ b1 ∧ b1 ≤ 0xBF) ∨ (0xE1 ≤ b ∧ b ≤ 0xEC ∧ isContB b1) ∨
  (b = 0xED ∧ 0x80 ≤ b1 ∧ b1 ≤ 0x9F) ∨ (0xEE ≤ b ∧ b ≤ 0xEF ∧ isContB b1)

/-- Valid first continuation for a four-byte UTF-8 lead byte. -/
abbrev cont4 (b b1 : Byte) : Prop :=
  (b = 0xF0 ∧ 0x90 ≤ b1 ∧ b1 ≤ 0xBF) ∨ (0xF1 ≤ b ∧ b ≤ 0xF3 ∧ isContB b1) ∨
  (b = 0xF4 ∧ 0x80 ≤ b1 ∧ b1 ≤ 0x8F)

/-- Code point of a two-byte UTF-8 sequence. -/
def twoVal (b b1 : Byte) : Nat := (b - 0xC0) * 0x40 + (b1 - 0x80)

/-- Code point of a three-byte UTF-8 sequence. -/
def threeVal (b b1 b2 : Byte) : Nat :=
  (b - 0xE0) * 0x1000 + (b1 - 0x80) * 0x40 + (b2 - 0x80)

/-- Code point of a four-byte UTF-8 sequence. -/
def fourVal (b b1 b2 b3 : Byte) : Nat :=
  (b - 0xF0) * 0x40000 + (b1 - 0x80) * 0x1000 + (b2 - 0x80) * 0x40 + (b3 - 0x80)

/-- Strict UTF-8 decoding, modelling Python `bytes.decode()` (which raises on
invalid input, here `none`). -/
def utf8DecodeStrict : ByteStr → Option (List Char)
  | [] => some []
  | b :: bs =>
    if b < 0x80 then (utf8DecodeStrict bs).map (fun cs => Char.ofNat b :: cs) else
    match bs with
    | [] => none
    | b1 :: bs1 =>
      if twoOk b b1 then (utf8DecodeStrict bs1).map (fun cs => Char.ofNat (twoVal b b1) :: cs) else
      match bs1 with
      | [] => none
      | b2 :: bs2 =>
        if cont3 b b1 ∧ isContB b2 then
          (utf8DecodeStrict bs2).map (fun cs => Char.ofNat (threeVal b b1 b2) :: cs) else
        match bs2 with
        | [] => none
        | b3 :: bs3 =>
          if cont4 b b1 ∧ isContB b2 ∧ isContB b3 then
            (utf8DecodeStrict bs3).map (fun cs => Char.ofNat (fourVal b b1 b2 b3) :: cs)
          else none

/-- Python `bytes.decode()`: `none` models a raised `UnicodeDecodeError`. -/
def strDecode (bs : ByteStr) : Option String := (utf8DecodeStrict bs).map String.mk

/-- UTF-8 encoding of a single character. -/
def utf8EncodeChar (c : Char) : ByteStr :=
  let n := c.toNat
  if n < 0x80 then [n]
  else if n < 0x800 then [0xC0 + n / 0x40, 0x80 + n % 0x40]
  else if n < 0x10000 then [0xE0 + n / 0x1000, 0x80 + (n / 0x40) % 0x40, 0x80 + n % 0x40]
  else [0xF0 + n / 0x40000, 0x80 + (n / 0x1000) % 0x40, 0x80 + (n / 0x40) % 0x40, 0x80 + n % 0x40]

/-- Python `str.encode()`. -/
def strEncode (s : String) : ByteStr := (s.data.map utf8EncodeChar).flatten

/-- Fuel-driven loop of UTF-8 decoding with `errors='replace'`: each maximal
invalid subsequence is replaced by one U+FFFD, as in CPython's decoder.  Every
step consumes at least one byte, so fuel equal to the length suffices. -/
def utf8DecodeReplaceF : Nat → ByteStr → List Char
  | _, [] => []
  | 0, _ => []
  | fuel + 1, b :: bs =>
    if b < 0x80 then Char.ofNat b :: utf8DecodeReplaceF fuel bs else
    if 0xC2 ≤ b ∧ b ≤ 0xDF then
      match bs with
      | [] => [Char.ofNat 0xFFFD]
      | b1 :: bs1 =>
        if isContB b1 then Char.ofNat (twoVal b b1) :: utf8DecodeReplaceF fuel bs1
        else Char.ofNat 0xFFFD :: utf8DecodeReplaceF fuel bs
    else if 0xE0 ≤ b ∧ b ≤ 0xEF then
      match bs with
      | [] => [Char.ofNat 0xFFFD]
      | b1 :: bs1 =>
        if cont3 b b1 then
          match bs1 with
          | [] => [Char.ofNat 0xFFFD]
          | b2 :: bs2 =>
            if isContB b2 then Char.ofNat (threeVal b b1 b2) :: utf8DecodeReplaceF fuel bs2
            else Char.ofNat 0xFFFD :: utf8DecodeReplaceF fuel bs1
        else Char.ofNat 0xFFFD :: utf8DecodeReplaceF fuel bs
    else if 0xF0 ≤ b ∧ b ≤ 0xF4 then
      match bs with
      | [] => [Char.ofNat 0xFFFD]
      | b1 :: bs1 =>
        if cont4 b b1 then
          match bs1 with
          | [] => [Char.ofNat 0xFFFD]
          | b2 :: bs2 =>
            if isContB b2 then
              match bs2 with
              | [] => [Char.ofNat 0xFFFD]
              | b3 :: bs3 =>
                if isContB b3 then Char.ofNat (fourVal b b1 b2 b3) :: utf8DecodeReplaceF fuel bs3
                else Char.ofNat 0xFFFD :: utf8DecodeReplaceF fuel bs2
            else Char.ofNat 0xFFFD :: utf8DecodeReplaceF fuel bs1
        else Char.ofNat 0xFFFD :: utf8DecodeReplaceF fuel bs
    else Char.ofNat 0xFFFD :: utf8DecodeReplaceF fuel bs

/-- UTF-8 decoding with `errors='replace'`. -/
def utf8DecodeReplace (bs : ByteStr) : List Char := utf8DecodeReplaceF bs.length bs

/-- ASCII hexadecimal digit value, as accepted by `urllib.parse`'s
percent-escape table. -/
def hexDigit (c : Char) : Option Nat :=
  if '0' ≤ c ∧ c ≤ '9' then some (c.toNat - '0'.toNat)
  else if 'a' ≤ c ∧ c ≤ 'f' then some (c.toNat - 'a'.toNat + 10)
  else if 'A' ≤ c ∧ c ≤ 'F' then some (c.toNat - 'A'.toNat + 10)
  else none

/-- Core loop of `urllib.parse.unquote`: `%XX` escapes (and the surrounding
ASCII characters) are collected as bytes and decoded as UTF-8 with
`errors='replace'`; an invalid escape keeps its `%` literally; non-ASCII
characters pass through unchanged. -/
def unquoteCore : List Char → ByteStr → List Char
  | [], pend => utf8DecodeReplace pend.reverse
  | '%' :: c1 :: c2 :: rest, pend =>
    match hexDigit c1, hexDigit c2 with
    | some hi, some lo => unquoteCore rest ((hi * 16 + lo) :: pend)
    | _, _ => unquoteCore (c1 :: c2 :: rest) (0x25 :: pend)
  | c :: rest, pend =>
    if c.toNat < 0x80 then unquoteCore rest (c.toNat :: pend)
    else utf8DecodeReplace pend.reverse ++ (c :: unquoteCore rest [])

/-- Model of `urllib.parse.unquote` with its default
`encoding='utf-8', errors='replace'` arguments. -/
def unquote (s : String) : String := String.mk (unquoteCore s.data [])

/-- ASCII whitespace, as stripped/split by Python string methods (Python also
handles some further Unicode space characters, which never occur here). -/
def pyIsSpace (c : Char) : Bool :=
  c == ' ' || c == '\t' || c == '\n' || c == '\r' || c == Char.ofNat 0x0B || c == Char.ofNat 0x0C

/-- Line-break characters recognised by Python `str.splitlines`. -/
def isLineBreak (c : Char) : Bool :=
  c == '\n' || c == '\r' || c == Char.ofNat 0x0B || c == Char.ofNat 0x0C ||
  c == Char.ofNat 0x1C || c == Char.ofNat 0x1D || c == Char.ofNat 0x1E ||
  c == Char.ofNat 0x85 || c == Char.ofNat 0x2028 || c == Char.ofNat 0x2029

/-- Accumulator loop for `str.splitlines` (`\r\n` counts as one break; no
trailing empty line is produced). -/
def pySplitLinesAux : List Char → List Char → List (List Char)
  | [], acc => if acc.isEmpty then [] else [acc.reverse]
  | '\r' :: '\n' :: rest, acc => acc.reverse :: pySplitLinesAux rest []
  | c :: rest, acc =>
    if isLineBreak c then acc.reverse :: pySplitLinesAux rest []
    else pySplitLinesAux rest (c :: acc)

/-- Python `str.splitlines()`. -/
def pySplitLines (s : String) : List String := (pySplitLinesAux s.data []).map String.mk

/-- Accumulator loop for whitespace splitting. -/
def pySplitWSAux : List Char → List Char → List (List Char)
  | [], acc => if acc.isEmpty then [] else [acc.reverse]
  | c :: cs, acc =>
    if pyIsSpace c then
      if acc.isEmpty then pySplitWSAux cs [] else acc.reverse :: pySplitWSAux cs []
    else pySplitWSAux cs (c :: acc)

/-- Python `str.split()` with no separator: split on whitespace runs,
discarding empty fields. -/
def pySplitWS (s : String) : List String := (pySplitWSAux s.data []).map String.mk

/-- Python `str.lstrip()` (ASCII whitespace). -/
def pyLstrip (s : String) : String := String.mk (s.data.dropWhile pyIsSpace)

/-- Python `str.rstrip()` (ASCII whitespace). -/
def pyRstrip (s : String) : String := String.mk ((s.data.reverse.dropWhile pyIsSpace).reverse)

/-- ASCII lower-casing of one character, as `str.lower` does on ASCII data. -/
def charLower (c : Char) : Char :=
  if 'A' ≤ c ∧ c ≤ 'Z' then Char.ofNat (c.toNat + 32) else c

/-- Python `str.lower()` (ASCII; header names here are always ASCII). -/
def pyLower (s : String) : String := String.mk (s.data.map charLower)

/-- Python `str.startswith(pre)`. -/
def pyStartsWith (s pre : String) : Bool := pre.data.isPrefixOf s.data

/-- Python `sub in s` for strings. -/
def pyContains (s sub : String) : Bool := (findSepL sub.data s.data).isSome

/-- Python `s.split(sep, 1)`. -/
def pySplitOnce (s sep : String) : List String :=
  match findSepL sep.data s.data with
  | none => [s]
  | some (pre, post) => [String.mk pre, String.mk post]

/-- Python `s.split(sep)`. -/
def pySplit (s sep : String) : List String := (splitSepList sep.data s.data).map String.mk

/-- Valid tail of a digit string for Python `int()`: underscores may appear
only between digits. -/
def digitsTail : List Char → Bool
  | [] => true
  | '_' :: c :: rest => c.isDigit && digitsTail rest
  | '_' :: [] => false
  | c :: rest => c.isDigit && digitsTail rest

/-- Valid (non-empty) unsigned digit string for Python `int()`. -/
def digitsOk : List Char → Bool
  | [] => false
  | c :: rest => c.isDigit && digitsTail rest

/-- Numeric value of a digit string, skipping grouping underscores. -/
def digitsVal (cs : List Char) : Nat :=
  cs.foldl (fun acc c => if c == '_' then acc else acc * 10 + (c.toNat - '0'.toNat)) 0

/-- Strip leading and trailing ASCII whitespace. -/
def pyStripChars (cs : List Char) : List Char :=
  ((cs.dropWhile pyIsSpace).reverse.dropWhile pyIsSpace).reverse

/-- Model of Python `int(s)` on strings: optional surrounding whitespace, an
optional sign, then ASCII digits with optional grouping underscores; `none`
models a raised `ValueError`. -/
def pyIntParse (s : String) : Option Int :=
  match pyStripChars s.data with
  | '+' :: ds => if digitsOk ds then some ((digitsVal ds : Nat) : Int) else none
  | '-' :: ds => if digitsOk ds then some (-((digitsVal ds : Nat) : Int)) else none
  | ds => if digitsOk ds then some ((digitsVal ds : Nat) : Int) else none

/-- Python slice `l[0:n]`, including negative-index semantics. -/
def pySliceTo (l : ByteStr) (n : Int) : ByteStr :=
  if 0 ≤ n then l.take n.toNat else l.take (l.length - (-n).toNat)

/-- Python slice `l[n:]`, including negative-index semantics. -/
def pySliceFrom (l : ByteStr) (n : Int) : ByteStr :=
  if 0 ≤ n then l.drop n.toNat else l.drop (l.length - (-n).toNat)

/-- Global statistics record of `webserver.py` (`class Statistics`).  Counters
are Python integers; times are wall-clock durations, modelled as exact
rationals.  The protecting lock is modelled by the fact that every update is a
single atomic state transition. -/
structure Statistics where
  total_connections : Int := 0
  active_connections : Int := 0
  num_requests : Int := 0
  num_errors : Int := 0
  max_time : ℚ := 0
  tot_time : ℚ := 0
  avg_time : ℚ := 0
deriving DecidableEq, Repr

/-- Initial statistics (`stats = Statistics()`). -/
def initialStats : Statistics := {}

/-- Update performed by the accept loop for each accepted connection
(`stats.total_connections += 1`). -/
def connectionOpened (s : Statistics) : Statistics :=
  { s with total_connections := s.total_connections + 1 }

/-- Update at the start of `handle_http_connection`
(`stats.active_connections += 1`). -/
def sessionStarted (s : Statistics) : Statistics :=
  { s with active_connections := s.active_connections + 1 }

/-- Update in the `finally` block of `handle_http_connection`
(`stats.active_connections -= 1`). -/
def connectionClosed (s : Statistics) : Statistics :=
  { s with active_connections := s.active_connections - 1 }

/-- Update in `send_http_response` for a non-`"200 "` status
(`stats.num_errors += 1`). -/
def errorObserved (s : Statistics) : Statistics :=
  { s with num_errors := s.num_errors + 1 }

/-- End-of-request statistics update of `handle_http_connection` (lines
581-585): increment the request counter, add the duration, recompute the
average from the updated totals, and raise the maximum if exceeded. -/
def requestCompleted (s : Statistics) (d : ℚ) : Statistics :=
  { s with
    num_requests := s.num_requests + 1
    tot_time := s.tot_time + d
    avg_time := (s.tot_time + d) / ((s.num_requests + 1 : Int) : ℚ)
    max_time := if s.max_time < d then d else s.max_time }

/-- One result of calling `sock.recv`: a data chunk (an empty chunk means the
peer closed the connection), a raised `socket.timeout`, or any other raised
socket exception. -/
inductive RecvEvent
  | chunk (b : ByteStr)
  | timeout
  | ioerror
deriving DecidableEq, Repr

/-- Fuel bound for the read loops: total scripted bytes plus event count. -/
def evSize : RecvEvent → Nat
  | .chunk b => b.length + 1
  | _ => 1

/-- Total fuel needed to drain a receive script. -/
def evMeasure (evs : List RecvEvent) : Nat := (evs.map evSize).sum

/-- Connection object of `webserver.py` (`class Connection`): the socket is
represented by its pending receive script and the list of responses written
so far (one entry per response, head bytes followed by body bytes); timestamps
are not modelled.  `leftover` is `self.leftover_data`. -/
structure Connection where
  leftover : ByteStr := []
  events : List RecvEvent := []
  sent : List ByteStr := []
  closed : Bool := false
  num_requests : Int := 0
deriving DecidableEq, Repr

/-- Delimiter `b"\r\n\r\n"` separating an HTTP head from what follows. -/
def delimB : ByteStr := [13, 10, 13, 10]

/-- Outcome of `Connection.read_until_blank_line`: the decoded head on
success, one of the `ERR_SOCKET` sentinel values otherwise; `blocked` stands
for a call that never returns (the script ran out without the loop ending). -/
inductive HeadRead
  | ok (s : String)
  | wasClosed
  | hadTimeout
  | hadError
  | blocked
deriving DecidableEq, Repr

/-- Loop of `Connection.read_until_blank_line`: keep `recv(4096)`-ing until
the accumulated data contains `b"\r\n\r\n"`; an empty `recv` result reports a
closed socket, `socket.timeout` and other exceptions report the corresponding
sentinels, and in each of those cases all accumulated data is saved back into
the leftover buffer.  On success the data before the delimiter is decoded
(a decode failure is caught by the bare `except`, after the leftover buffer
has already received the remainder-free prefix).  Returns the result, the new
leftover buffer, and the remaining receive script.  `readBlankStep` is the
delimiter-found-or-not check performed at the top of each iteration. -/
def readBlankStep (data : ByteStr) (evs : List RecvEvent) :
    Option (HeadRead × ByteStr × List RecvEvent) :=
  match findSepL delimB data with
  | some (pre, post) =>
    match strDecode pre with
    | some s => some (.ok s, post, evs)
    | none => some (.hadError, pre, evs)
  | none => none

/-- Fuel-indexed loop of `read_until_blank_line`; see `readBlankStep` for the
delimiter-found exit. -/
def readUntilBlankF : Nat → ByteStr → List RecvEvent → HeadRead × ByteStr × List RecvEvent
  | 0, data, evs =>
    match readBlankStep data evs with
    | some r => r
    | none => (.blocked, data, evs)
  | fuel + 1, data, evs =>
    match readBlankStep data evs with
    | some r => r
    | none =>
      match evs with
      | [] => (.blocked, data, [])
      | .timeout :: rest => (.hadTimeout, data, rest)
      | .ioerror :: rest => (.hadError, data, rest)
      | .chunk b :: rest =>
        if b.isEmpty then (.wasClosed, data, rest)
        else if b.length ≤ 4096 then readUntilBlankF fuel (data ++ b) rest
        else readUntilBlankF fuel (data ++ b.take 4096) (.chunk (b.drop 4096) :: rest)

/-- `Connection.read_until_blank_line`, with sufficient fuel for any
terminating run. -/
def read_until_blank_line (data : ByteStr) (evs : List RecvEvent) :
    HeadRead × ByteStr × List RecvEvent :=
  readUntilBlankF (evMeasure evs + 1) data evs

/-- Outcome of `Connection.read_amount`: the decoded body on success, `failed`
models a `None` return (closed socket, or any exception caught by the bare
`except`), `blocked` a call that never returns. -/
inductive BodyRead
  | ok (s : String)
  | failed
  | blocked
deriving DecidableEq, Repr

/-- Loop of `Connection.read_amount(n)`: keep reading `recv(n - len(data))`
until at least `n` bytes are buffered, then take the first `n` bytes (Python
slice semantics, since `n` is an arbitrary parsed integer) and decode them.
An empty `recv` result or any exception makes the function return `None`,
saving the accumulated data (or, for a decode failure, the already-sliced
prefix) in the leftover buffer. -/
def readAmountDone (n : Int) (data : ByteStr) (evs : List RecvEvent) :
    BodyRead × ByteStr × List RecvEvent :=
  let pre := pySliceTo data n
  let post := pySliceFrom data n
  match strDecode pre with
  | some s => (.ok s, post, evs)
  | none => (.failed, pre, evs)

/-- Fuel-indexed loop of `read_amount`; see `readAmountDone` for the
enough-data exit. -/
def readAmountF : Nat → Int → ByteStr → List RecvEvent → BodyRead × ByteStr × List RecvEvent
  | 0, n, data, evs =>
    if (data.length : Int) < n then (.blocked, data, evs) else readAmountDone n data evs
  | fuel + 1, n, data, evs =>
    if (data.length : Int) < n then
      match evs with
      | [] => (.blocked, data, [])
      | .timeout :: rest => (.failed, data, rest)
      | .ioerror :: rest => (.failed, data, rest)
      | .chunk b :: rest =>
        if b.isEmpty then (.failed, data, rest)
        else
          let k := (n - (data.length : Int)).toNat
          if b.length ≤ k then readAmountF fuel n (data ++ b) rest
          else readAmountF fuel n (data ++ b.take k) (.chunk (b.drop k) :: rest)
    else readAmountDone n data evs

/-- `Connection.read_amount`, with sufficient fuel for any terminating run. -/
def read_amount (n : Int) (data : ByteStr) (evs : List RecvEvent) :
    BodyRead × ByteStr × List RecvEvent :=
  readAmountF (evMeasure evs + 1) n data evs

/-- `get_header_value(headers, key)`: linear scan for the first header whose
lower-cased text starts with `key.lower() + ": "`, returning the part after
the first space.  (The inner split always succeeds because the matched
pattern contains a space, so the impossible branch is unreachable.) -/
def get_header_value (headers : List String) (key : String) : Option String :=
  headers.findSome? fun hdr =>
    if pyStartsWith (pyLower hdr) (pyLower key ++ ": ") then
      match pySplitOnce hdr " " with
      | [_, v] => some v
      | _ => none
    else none

/-- `get_cookie(headers, name)`: split the Cookie header on the exact
separator `"; "`, then split each pair once on `"="`.  A pair without `"="`
reaches `keyval.lstrip()` — an attribute access on a *list* — which raises
`AttributeError`; the `Except.error` constructor models that uncaught
exception. -/
def get_cookie (headers : List String) (name : String) : Except String (Option String) :=
  match get_header_value headers "Cookie" with
  | none => .ok none
  | some vals => goPairs (pySplit vals "; ")
where
  /-- Loop over the `"; "`-separated pairs of the Cookie header. -/
  goPairs : List String → Except String (Option String)
  | [] => .ok none
  | pair :: rest =>
    match pySplitOnce pair "=" with
    | [k, v] =>
      if pyRstrip k = name then .ok (some (pyLstrip v)) else goPairs rest
    | _ => .error "AttributeError"

/-- Request object (`class Request`). -/
structure Request where
  method : String := ""
  path : String := ""
  version : String := ""
  headers : List String := []
  length : Int := 0
  body : Option String := none
deriving DecidableEq, Repr

/-- Python value stored in `Response.body`: `None`, raw bytes, text, or any
other value (represented by its `str()` rendering). -/
inductive BodyVal
  | noBody
  | bytesBody (b : ByteStr)
  | strBody (s : String)
  | otherBody (rendered : String)
deriving DecidableEq, Repr

/-- Response object (`class Response`). -/
structure Response where
  code : String
  mime_type : Option String := none
  body : BodyVal := .noBody
  cookies : Option (List String) := none
deriving DecidableEq, Repr

/-- Body coercion of `send_http_response`: bytes pass through, strings are
encoded, anything else (including `None`) is `str()`-ified then encoded. -/
def coerceBody : BodyVal → ByteStr
  | .bytesBody b => b
  | .strBody s => strEncode s
  | .noBody => strEncode "None"
  | .otherBody r => strEncode r

/-- Head text built by `send_http_response` before the content rules apply:
status line, fixed server header, `Date` header (the formatted clock value is
the `now` parameter), and one `Set-Cookie` header per cookie (`expiry` is the
formatted now-plus-7-days value). -/
def responseHeadPre (now expiry : String) (resp : Response) : String :=
  let d := "HTTP/1.1 " ++ resp.code ++ "\r\n" ++ "Server: csci356\r\n" ++
    "Date: " ++ now ++ "\r\n"
  match resp.cookies with
  | none => d
  | some cs =>
    d ++ String.join (cs.map fun c => "Set-Cookie: " ++ c ++ "; Expires=" ++ expiry ++ "\r\n")

/-- Complete response head of `send_http_response`, including the content
headers and the terminating blank line. -/
def responseHead (now expiry : String) (resp : Response) : String :=
  responseHeadPre now expiry resp ++
    (match resp.mime_type with
     | none => "Content-Length: 0\r\n"
     | some m =>
       "Content-Type: " ++ m ++ "\r\n" ++
       "Content-Length: " ++ toString (coerceBody resp.body).length ++ "\r\n") ++
  "\r\n"

/-- Wire bytes written for one response: the encoded head, then (iff a mime
type is set) the coerced body bytes. -/
def responseWire (now expiry : String) (resp : Response) : ByteStr :=
  strEncode (responseHead now expiry resp) ++
    (match resp.mime_type with
     | none => []
     | some _ => coerceBody resp.body)

/-- `send_http_response(conn, resp)`: tally an error for any status that does
not start with `"200 "`, then write the head and (if a mime type is set) the
body to the socket. -/
def send_http_response (now expiry : String) (resp : Response) (st : Statistics)
    (c : Connection) : Statistics × Connection :=
  let st' := if pyStartsWith resp.code "200 " then st else errorObserved st
  (st', { c with sent := c.sent ++ [responseWire now expiry resp] })

/-- Termination status of one `handle_one_http_request` call. -/
inductive ReqOutcome
  | done
  | raisedValueError
  | blocked
deriving DecidableEq, Repr

/-- Result of `handle_one_http_request`, with two pieces of instrumentation
used only to state theorems: the request handed to the dispatch hook (if any)
and whether `read_amount` was invoked for a body. -/
structure ReqResult where
  conn : Connection
  stats : Statistics
  outcome : ReqOutcome := .done
  dispatched : Option Request := none
  bodyRead : Bool := false
deriving DecidableEq, Repr

/-- Path rewrite of `handle_one_http_request` (lines 368-372): if the path
contains `?`, split once on the first `?` and percent-decode only the part
before it, reattaching the untouched query string; otherwise percent-decode
the whole path. -/
def decodePath (p : String) : String :=
  if pyContains p "?" then
    match pySplitOnce p "?" with
    | [pre, params] => unquote pre ++ "?" ++ params
    | _ => unquote p
  else unquote p

/-- `handle_one_http_request(conn)`.  The routing block (lines 389-401, which
inspects the method and path and calls the `handle_http_get*` collaborators)
is the externally supplied dispatch hook of the specification and is passed
in as the function `dispatch`; everything else follows the source line by
line: read the head, answer 400 for a missing or malformed request line
without reading a body or dispatching, rewrite the path, answer 411 for
chunked transfer encoding, read the body when `Content-Length` is present
(`int(n)` raising `ValueError` on a malformed value, which nothing catches),
then dispatch and send the response. -/
def handle_one_http_request (dispatch : Request → Response) (now expiry : String)
    (c : Connection) (st : Statistics) : ReqResult :=
  match read_until_blank_line c.leftover c.events with
  | (.blocked, lo, evs) =>
    { conn := { c with leftover := lo, events := evs }, stats := st, outcome := .blocked }
  | (.wasClosed, lo, evs) =>
    { conn := { c with leftover := lo, events := evs }, stats := st }
  | (.hadTimeout, lo, evs) =>
    { conn := { c with leftover := lo, events := evs }, stats := st }
  | (.hadError, lo, evs) =>
    { conn := { c with leftover := lo, events := evs }, stats := st }
  | (.ok data, lo, evs) =>
    let c1 : Connection := { c with leftover := lo, events := evs }
    match pySplitLines data with
    | [] =>
      let resp : Response :=
        { code := "400 BAD REQUEST", mime_type := some "text/plain",
          body := .strBody "You need a request-line!" }
      let (st', c2) := send_http_response now expiry resp st c1
      { conn := c2, stats := st' }
    | request_line :: hdrs =>
      match pySplitWS request_line with
      | [m, p, v] =>
        let req1 : Request :=
          { method := m, path := decodePath p, version := v, headers := hdrs }
        if get_header_value hdrs "Transfer-Encoding" = some "chunked" then
          let resp : Response :=
            { code := "411 LENGTH REQUIRED", mime_type := some "text/plain",
              body := .strBody "Your request uses chunked transfer encoding, sorry!" }
          let (st', c2) := send_http_response now expiry resp st c1
          { conn := c2, stats := st' }
        else
          match get_header_value hdrs "Content-Length" with
          | none =>
            let resp := dispatch req1
            let (st', c2) := send_http_response now expiry resp st c1
            { conn := c2, stats := st', dispatched := some req1 }
          | some nstr =>
            match pyIntParse nstr with
            | none =>
              { conn := c1, stats := st, outcome := .raisedValueError }
            | some n =>
              match read_amount n c1.leftover c1.events with
              | (.blocked, lo2, evs2) =>
                { conn := { c1 with leftover := lo2, events := evs2 }, stats := st,
                  outcome := .blocked, bodyRead := true }
              | (.ok bodyText, lo2, evs2) =>
                let req2 := { req1 with length := n, body := some bodyText }
                let resp := dispatch req2
                let (st', c2) :=
                  send_http_response now expiry resp st { c1 with leftover := lo2, events := evs2 }
                { conn := c2, stats := st', dispatched := some req2, bodyRead := true }
              | (.failed, lo2, evs2) =>
                let req2 := { req1 with length := n, body := none }
                let resp := dispatch req2
                let (st', c2) :=
                  send_http_response now expiry resp st { c1 with leftover := lo2, events := evs2 }
                { conn := c2, stats := st', dispatched := some req2, bodyRead := true }
      | _ =>
        let resp : Response :=
          { code := "400 BAD REQUEST", mime_type := some "text/plain",
            body := .strBody "Your request-line is malformed!" }
        let (st', c2) := send_http_response now expiry resp st c1
        { conn := c2, stats := st' }

/-- Result of `handle_http_connection`. -/
structure SessResult where
  conn : Connection
  stats : Statistics
  outcome : ReqOutcome := .done
deriving DecidableEq, Repr

/-- `handle_http_connection(conn)`: bump the active-connection counter, make a
single `handle_one_http_request` attempt, and — when that attempt returns —
bump the per-connection counter and record the request statistics with the
measured duration `d`; the `finally` block closes the socket and decrements
the active-connection counter, also when a `ValueError` escaped the attempt
(the exception then propagates, so the request statistics stay untouched).  A
blocked attempt never returns, so nothing afterwards runs. -/
def handle_http_connection (dispatch : Request → Response) (now expiry : String)
    (d : ℚ) (c : Connection) (st : Statistics) : SessResult :=
  let st0 := sessionStarted st
  let r := handle_one_http_request dispatch now expiry c st0
  match r.outcome with
  | .blocked => { conn := r.conn, stats := r.stats, outcome := .blocked }
  | .raisedValueError =>
    { conn := { r.conn with closed := true }, stats := connectionClosed r.stats,
      outcome := .raisedValueError }
  | .done =>
    let st1 := requestCompleted r.stats d
    { conn := { r.conn with closed := true, num_requests := r.conn.num_requests + 1 },
      stats := connectionClosed st1 }

/-- Modelled from the spec: claim C3 speaks of "a 2xx status", i.e. a status
string whose numeric code is in the 200 range; used only to compare the
claim's wording with the code's actual `startswith("200 ")` test. -/
def statusIs2xx (code : String) : Bool :=
  match code.data with
  | c1 :: c2 :: c3 :: _ => c1 == '2' && c2.isDigit && c3.isDigit
  | _ => false

/-- Invariant claimed for the statistics aggregator: whenever the request
count is positive, the stored average equals the cumulative time divided by
the request count. -/
def statsInvariant (s : Statistics) : Prop :=
  0 < s.num_requests → s.avg_time = s.tot_time / ((s.num_requests : Int) : ℚ)

/-- Iterate the end-of-request statistics update `n` times with the same
duration. -/
def iterRequests : Nat → ℚ → Statistics → Statistics
  | 0, _, s => s
  | n + 1, d, s => iterRequests n d (requestCompleted s d)

/-- Dispatch hook that always answers 200, used for concrete runs. -/
def dispatchConst200 : Request → Response := fun _ =>
  { code := "200 OK", mime_type := some "text/plain", body := .strBody "hi" }

/-- Connection whose buffered input already holds two complete pipelined
requests. -/
def connTwoRequests : Connection :=
  { leftover := strEncode "GET /a HTTP/1.1\r\n\r\nGET /b HTTP/1.1\r\n\r\n" }

/-- Relation `Consumed evs bs evs'`: running the read loop consumed the bytes
`bs` from the front of the receive script `evs`, leaving `evs'` (the final
chunk may be consumed only partially). -/
inductive Consumed : List RecvEvent → ByteStr → List RecvEvent → Prop
  | nil (evs : List RecvEvent) : Consumed evs [] evs
  | whole {b : ByteStr} {rest : List RecvEvent} {bs : ByteStr} {evs' : List RecvEvent} :
      b ≠ [] → Consumed rest bs evs' → Consumed (.chunk b :: rest) (b ++ bs) evs'
  | part {a b : ByteStr} {rest : List RecvEvent} :
      a ≠ [] → b ≠ [] → Consumed (.chunk (a ++ b) :: rest) a (.chunk b :: rest)

/-- Characterisation of first-occurrence search for a single-element pattern:
it splits the list at the first occurrence of that element. -/
theorem findSepL_single {α : Type} [DecidableEq α] (a : α) (l : List α) :
    findSepL [a] l =
      if l.contains a then
        some (l.takeWhile (fun x => x != a), (l.dropWhile (fun x => x != a)).drop 1)
      else none := by
  induction l with
  | nil => simp [findSepL, findSepFuel]
  | cons c cs ih =>
    simp only [findSepL, List.length_cons] at ih ⊢
    rw [findSepFuel]
    by_cases hca : a = c
    · subst hca
      simp [List.isPrefixOf]
    · have hpre : ([a].isPrefixOf (c :: cs)) = false := by
        simp [List.isPrefixOf, hca]
      simp only [hpre, Bool.false_eq_true, if_false]
      rw [ih]
      by_cases hmem : a ∈ cs
      · simp [hmem, hca, Ne.symm hca]
      · simp [hmem, hca, Ne.symm hca]

/-- Consuming a split chunk is the same as consuming the original chunk. -/
theorem Consumed.prepend {x y : ByteStr} {rest : List RecvEvent} {bs : ByteStr}
    {evs' : List RecvEvent} (h1 : x ≠ []) (hy : y ≠ [])
    (h : Consumed (.chunk y :: rest) bs evs') :
    Consumed (.chunk (x ++ y) :: rest) (x ++ bs) evs' := by
  cases h with
  | nil =>
    simpa using Consumed.part h1 hy
  | whole hb hc =>
    simpa [List.append_assoc] using Consumed.whole (b := x ++ y) (by simp [h1]) hc
  | part hc1 hc2 =>
    simpa [List.append_assoc] using Consumed.part (a := x ++ _) (by simp [h1]) hc2


/-- Elimination lemma for a successful delimiter check. -/
theorem readBlankStep_ok_elim (data : ByteStr) (evs : List RecvEvent) (s : String)
    (lo : ByteStr) (evs' : List RecvEvent) :
    readBlankStep data evs = some (.ok s, lo, evs') →
    evs' = evs ∧ ∃ pre, findSepL delimB data = some (pre, lo) ∧ strDecode pre = some s := by
  intro h
  unfold readBlankStep at h
  split at h
  case _ pre post hfind =>
    split at h
    case _ t hdec =>
      simp only [Option.some.injEq, Prod.mk.injEq, HeadRead.ok.injEq] at h
      obtain ⟨ht, hlo, hevs⟩ := h
      exact ⟨hevs.symm, pre, by rw [hfind, hlo], by rw [hdec, ht]⟩
    case _ hdec => simp at h
  case _ hfind => simp at h

/-- The delimiter check never reports the peer-closed outcome. -/
theorem readBlankStep_ne_closed (data : ByteStr) (evs : List RecvEvent)
    (lo : ByteStr) (evs' : List RecvEvent) :
    readBlankStep data evs = some (.wasClosed, lo, evs') → False := by
  intro h
  unfold readBlankStep at h
  split at h
  case _ pre post hfind =>
    split at h <;> simp_all
  case _ hfind => simp at h

/-- If no delimiter is present, the delimiter check reports nothing. -/
theorem readBlankStep_none (data : ByteStr) (evs : List RecvEvent)
    (hfind : findSepL delimB data = none) : readBlankStep data evs = none := by
  unfold readBlankStep
  rw [hfind]

/-- If the delimiter check reports nothing, the buffer has no delimiter. -/
theorem readBlankStep_none_elim (data : ByteStr) (evs : List RecvEvent)
    (h : readBlankStep data evs = none) : findSepL delimB data = none := by
  unfold readBlankStep at h
  split at h
  case _ pre post hfind => split at h <;> simp_all
  case _ hfind => exact hfind

theorem readUntilBlankF_ok : ∀ (fuel : Nat) (data : ByteStr) (evs : List RecvEvent)
    (s : String) (lo : ByteStr) (evs' : List RecvEvent),
    readUntilBlankF fuel data evs = (.ok s, lo, evs') →
    ∃ bs pre, Consumed evs bs evs' ∧
      findSepL delimB (data ++ bs) = some (pre, lo) ∧ strDecode pre = some s := by
  intro fuel
  induction fuel with
  | zero =>
    intro data evs s lo evs' h
    simp only [readUntilBlankF] at h
    split at h
    case _ r hstep =>
      subst h
      obtain ⟨hevs, pre, hfind, hdec⟩ := readBlankStep_ok_elim data evs s lo evs' hstep
      subst hevs
      exact ⟨[], pre, Consumed.nil _, by simpa using hfind, hdec⟩
    case _ hstep => simp at h
  | succ fuel ih =>
    intro data evs s lo evs' h
    simp only [readUntilBlankF] at h
    split at h
    case _ r hstep =>
      subst h
      obtain ⟨hevs, pre, hfind, hdec⟩ := readBlankStep_ok_elim data evs s lo evs' hstep
      subst hevs
      exact ⟨[], pre, Consumed.nil _, by simpa using hfind, hdec⟩
    case _ hstep =>
      rcases evs with _ | ⟨ev, rest⟩
      · simp at h
      · rcases ev with b | _ | _
        · simp only [] at h
          by_cases hb : b.isEmpty
          · rw [if_pos hb] at h
            simp at h
          · rw [if_neg hb] at h
            by_cases hlen : b.length ≤ 4096
            · rw [if_pos hlen] at h
              obtain ⟨bs, pre, hcons, hfind', hdec⟩ := ih (data ++ b) rest s lo evs' h
              refine ⟨b ++ bs, pre, Consumed.whole (by simpa using hb) hcons, ?_, hdec⟩
              simpa [List.append_assoc] using hfind'
            · rw [if_neg hlen] at h
              obtain ⟨bs, pre, hcons, hfind', hdec⟩ :=
                ih (data ++ b.take 4096) (.chunk (b.drop 4096) :: rest) s lo evs' h
              refine ⟨b.take 4096 ++ bs, pre, ?_, ?_, hdec⟩
              · have hp := Consumed.prepend (x := b.take 4096) (y := b.drop 4096)
                  (List.ne_nil_of_length_pos (by simp [List.length_take]; omega))
                  (List.ne_nil_of_length_pos (by simp [List.length_drop]; omega)) hcons
                simpa using hp
              · simpa [List.append_assoc] using hfind'
        · simp at h
        · simp at h

theorem readUntilBlankF_closed : ∀ (fuel : Nat) (data : ByteStr) (evs : List RecvEvent)
    (lo : ByteStr) (evs' : List RecvEvent),
    readUntilBlankF fuel data evs = (.wasClosed, lo, evs') →
    ∃ bs, Consumed evs bs (.chunk [] :: evs') ∧ lo = data ++ bs ∧
      findSepL delimB lo = none := by
  intro fuel
  induction fuel with
  | zero =>
    intro data evs lo evs' h
    simp only [readUntilBlankF] at h
    split at h
    case _ r hstep =>
      subst h
      exact absurd hstep (by intro hc; exact readBlankStep_ne_closed data evs lo evs' hc)
    case _ hstep => simp at h
  | succ fuel ih =>
    intro data evs lo evs' h
    simp only [readUntilBlankF] at h
    split at h
    case _ r hstep =>
      subst h
      exact absurd hstep (by intro hc; exact readBlankStep_ne_closed data evs lo evs' hc)
    case _ hstep =>
      have hfind : findSepL delimB data = none := readBlankStep_none_elim data evs hstep
      rcases evs with _ | ⟨ev, rest⟩
      · simp at h
      · rcases ev with b | _ | _
        · simp only [] at h
          by_cases hb : b.isEmpty
          · rw [if_pos hb] at h
            simp only [Prod.mk.injEq] at h
            obtain ⟨hlo, hevs⟩ := by simpa using h
            have hbnil : b = [] := by simpa [List.isEmpty_iff] using hb
            subst hbnil hlo hevs
            exact ⟨[], Consumed.nil _, by simp, by simpa using hfind⟩
          · rw [if_neg hb] at h
            by_cases hlen : b.length ≤ 4096
            · rw [if_pos hlen] at h
              obtain ⟨bs, hcons, hlo, hnone⟩ := ih (data ++ b) rest lo evs' h
              exact ⟨b ++ bs, Consumed.whole (by simpa using hb) hcons, by simp [hlo], hnone⟩
            · rw [if_neg hlen] at h
              obtain ⟨bs, hcons, hlo, hnone⟩ :=
                ih (data ++ b.take 4096) (.chunk (b.drop 4096) :: rest) lo evs' h
              refine ⟨b.take 4096 ++ bs, ?_, by simp [hlo], hnone⟩
              have hp := Consumed.prepend (x := b.take 4096) (y := b.drop 4096)
                (List.ne_nil_of_length_pos (by simp [List.length_take]; omega))
                (List.ne_nil_of_length_pos (by simp [List.length_drop]; omega)) hcons
              simpa using hp
        · simp at h
        · simp at h
/-- Claim C6: for every initial leftover buffer and every receive script,
`read_until_blank_line` on success returns the bytes before the first
`\r\n\r\n` decoded as text with the delimiter discarded, retaining everything
after the delimiter in the leftover buffer for the next call; and if a read
returns zero bytes before the delimiter is found, it reports the
closed-socket sentinel and preserves all unconsumed bytes in the buffer. -/
theorem claim_C6 : ∀ (data : ByteStr) (evs : List RecvEvent),
    (∀ s lo evs', read_until_blank_line data evs = (.ok s, lo, evs') →
      ∃ bs pre, Consumed evs bs evs' ∧
        findSepL delimB (data ++ bs) = some (pre, lo) ∧ strDecode pre = some s) ∧
    (∀ lo evs', read_until_blank_line data evs = (.wasClosed, lo, evs') →
      ∃ bs, Consumed evs bs (.chunk [] :: evs') ∧ lo = data ++ bs ∧
        findSepL delimB lo = none) := by
  intro data evs
  exact ⟨fun s lo evs' h => readUntilBlankF_ok _ data evs s lo evs' h,
         fun lo evs' h => readUntilBlankF_closed _ data evs lo evs' h⟩

/-- Concrete instantiation of claim C6's two clauses: a buffered head split at
the delimiter, and a peer that closes after sending a partial head. -/
theorem claim_C6_witness :
    (∃ bs pre, Consumed ([] : List RecvEvent) bs [] ∧
      findSepL delimB (strEncode "ab\r\n\r\ncd" ++ bs) = some (pre, strEncode "cd") ∧
      strDecode pre = some "ab") ∧
    (∃ bs, Consumed [RecvEvent.chunk (strEncode "par"), RecvEvent.chunk [], RecvEvent.timeout]
        bs (.chunk [] :: [RecvEvent.timeout]) ∧
      strEncode "par" = [] ++ bs ∧ findSepL delimB (strEncode "par") = none) :=
  ⟨(claim_C6 (strEncode "ab\r\n\r\ncd") []).1 "ab" (strEncode "cd") [] (by decide),
   (claim_C6 [] [RecvEvent.chunk (strEncode "par"), RecvEvent.chunk [], RecvEvent.timeout]).2
     (strEncode "par") [RecvEvent.timeout] (by decide)⟩
/-- Claim C2 (code bug evaluation): a Cookie header segment without `=`
makes `get_cookie` raise `AttributeError` (the code calls `keyval.lstrip()`
on the list produced by `split`), instead of treating the segment as an
unnamed value under the empty-string key; segments with `=` behave as
described (first exact case-sensitive match, right-trimmed name,
left-trimmed value, absent when nothing matches). -/
theorem claim_C2_code_bug_eval :
    get_cookie ["Cookie: foo"] "foo" = .error "AttributeError" ∧
    get_cookie ["Cookie: a=1; b=2"] "b" = .ok (some "2") ∧
    get_cookie ["Cookie: a=1; b=2"] "c" = .ok none ∧
    get_cookie ["Host: x"] "a" = .ok none :=
  ⟨rfl, rfl, rfl, rfl⟩

/-- Claim C3 (amended): `send_http_response` increments the error counter
exactly once if and only if the status string does not start with `"200 "`. -/
theorem claim_C3_amended : ∀ (now expiry : String) (resp : Response)
    (st : Statistics) (c : Connection),
    ((send_http_response now expiry resp st c).1).num_errors =
      st.num_errors + (if pyStartsWith resp.code "200 " then 0 else 1) := by
  intro now expiry resp st c
  unfold send_http_response
  by_cases h : pyStartsWith resp.code "200 "
  · simp [h]
  · simp [h, errorObserved]

/-- Claim C3 counterexample: `"204 NO CONTENT"` is a 2xx status, yet
serializing a response with it increments the error counter. -/
theorem claim_C3_counterexample :
    statusIs2xx "204 NO CONTENT" = true ∧
    ((send_http_response "NOW" "EXP" { code := "204 NO CONTENT" } initialStats {}).1).num_errors =
      initialStats.num_errors + 1 := by
  decide
/-- Claim C7: the serializer appends exactly one wire write per response; with
no mime type the head carries `Content-Length: 0` and no body bytes follow;
with a mime type the head carries `Content-Type` and a `Content-Length` equal
to the coerced body's byte length, then the blank-line delimiter, then the
body bytes; and the body coercion passes bytes through, encodes text, and
stringifies-then-encodes anything else. -/
theorem claim_C7 :
    (∀ (now expiry : String) (resp : Response) (st : Statistics) (c : Connection),
      ((send_http_response now expiry resp st c).2).sent =
        c.sent ++ [responseWire now expiry resp]) ∧
    (∀ (now expiry : String) (resp : Response), resp.mime_type = none →
      responseHead now expiry resp =
        responseHeadPre now expiry resp ++ "Content-Length: 0\r\n" ++ "\r\n" ∧
      responseWire now expiry resp = strEncode (responseHead now expiry resp)) ∧
    (∀ (now expiry : String) (resp : Response) (m : String), resp.mime_type = some m →
      responseHead now expiry resp =
        responseHeadPre now expiry resp ++
          ("Content-Type: " ++ m ++ "\r\n" ++
           "Content-Length: " ++ toString (coerceBody resp.body).length ++ "\r\n") ++ "\r\n" ∧
      responseWire now expiry resp =
        strEncode (responseHead now expiry resp) ++ coerceBody resp.body) ∧
    (∀ b : ByteStr, coerceBody (.bytesBody b) = b) ∧
    (∀ s : String, coerceBody (.strBody s) = strEncode s) ∧
    (∀ r : String, coerceBody (.otherBody r) = strEncode r) ∧
    coerceBody .noBody = strEncode "None" := by
  refine ⟨?_, ?_, ?_, fun _ => rfl, fun _ => rfl, fun _ => rfl, rfl⟩
  · intro now expiry resp st c
    rfl
  · intro now expiry resp h
    refine ⟨?_, ?_⟩ <;> simp [responseHead, responseWire, h]
  · intro now expiry resp m h
    refine ⟨?_, ?_⟩ <;> simp [responseHead, responseWire, h]

/-- Concrete instantiation of claim C7 for a mime-less response and a
plain-text response. -/
theorem claim_C7_witness :
    (responseHead "NOW" "EXP" { code := "204 NO CONTENT" } =
      responseHeadPre "NOW" "EXP" { code := "204 NO CONTENT" } ++
        "Content-Length: 0\r\n" ++ "\r\n" ∧
     responseWire "NOW" "EXP" { code := "204 NO CONTENT" } =
      strEncode (responseHead "NOW" "EXP" { code := "204 NO CONTENT" })) ∧
    (responseHead "NOW" "EXP"
        { code := "200 OK", mime_type := some "text/plain", body := .strBody "hi" } =
      responseHeadPre "NOW" "EXP"
        { code := "200 OK", mime_type := some "text/plain", body := .strBody "hi" } ++
        ("Content-Type: " ++ "text/plain" ++ "\r\n" ++ "Content-Length: " ++
          toString (coerceBody (.strBody "hi")).length ++ "\r\n") ++ "\r\n" ∧
     responseWire "NOW" "EXP"
        { code := "200 OK", mime_type := some "text/plain", body := .strBody "hi" } =
      strEncode (responseHead "NOW" "EXP"
        { code := "200 OK", mime_type := some "text/plain", body := .strBody "hi" }) ++
        coerceBody (.strBody "hi")) :=
  ⟨claim_C7.2.1 "NOW" "EXP" _ rfl, claim_C7.2.2.1 "NOW" "EXP" _ "text/plain" rfl⟩

/-- Steady state of the statistics update loop: once the average, maximum and
cumulative time agree with a constant duration, further identical updates
keep them there. -/
theorem iterRequests_steady : ∀ (n : Nat) (d : ℚ) (s : Statistics),
    0 ≤ d → 0 < s.num_requests → s.avg_time = d → s.max_time = d →
    s.tot_time = (s.num_requests : ℚ) * d →
    (iterRequests n d s).avg_time = d ∧ (iterRequests n d s).max_time = d := by
  intro n
  induction n with
  | zero => intro d s _ _ h1 h2 _; exact ⟨h1, h2⟩
  | succ n ih =>
    intro d s hd hpos h1 h2 h3
    show (iterRequests n d (requestCompleted s d)).avg_time = d ∧ _
    have hne : ((s.num_requests : ℚ) + 1) ≠ 0 := by
      have h0 : (0 : Int) < s.num_requests + 1 := by omega
      have h0' : (0 : ℚ) < (s.num_requests : ℚ) + 1 := by exact_mod_cast h0
      linarith
    apply ih
    · exact hd
    · simp only [requestCompleted]
      omega
    · simp only [requestCompleted]
      rw [h3]
      push_cast
      field_simp
      ring
    · simp only [requestCompleted, h2, ite_self]
    · simp only [requestCompleted]
      rw [h3]
      push_cast
      ring

/-- Claim C8: every statistics update preserves the invariant that the stored
average equals the cumulative duration divided by the positive request count
(each update is one atomic state transition, so the invariant holds after
every update); and `n` completed requests of identical duration `d ≥ 0` from
the initial state yield an average and maximum both equal to `d`. -/
theorem claim_C8 :
    (∀ (s : Statistics) (d : ℚ), statsInvariant (requestCompleted s d)) ∧
    (∀ s : Statistics, statsInvariant s →
      statsInvariant (errorObserved s) ∧ statsInvariant (connectionOpened s) ∧
      statsInvariant (sessionStarted s) ∧ statsInvariant (connectionClosed s)) ∧
    (∀ (n : Nat) (d : ℚ), 0 ≤ d → 0 < n →
      (iterRequests n d initialStats).avg_time = d ∧
      (iterRequests n d initialStats).max_time = d) := by
  refine ⟨?_, ?_, ?_⟩
  · intro s d _
    rfl
  · intro s h
    exact ⟨h, h, h, h⟩
  · intro n d hd hn
    obtain ⟨m, rfl⟩ : ∃ m, n = m + 1 := ⟨n - 1, by omega⟩
    show (iterRequests m d (requestCompleted initialStats d)).avg_time = d ∧ _
    apply iterRequests_steady
    · exact hd
    · norm_num [requestCompleted, initialStats]
    · simp [requestCompleted, initialStats]
    · rcases eq_or_lt_of_le hd with h0 | h0
      · simp [requestCompleted, initialStats, ← h0]
      · simp [requestCompleted, initialStats, h0]
    · simp [requestCompleted, initialStats]

/-- Concrete instantiation of claim C8: three half-second requests give an
average and maximum of one half, and the invariant survives an error tally. -/
theorem claim_C8_witness :
    ((iterRequests 3 (1/2 : ℚ) initialStats).avg_time = 1/2 ∧
     (iterRequests 3 (1/2 : ℚ) initialStats).max_time = 1/2) ∧
    statsInvariant (errorObserved initialStats) :=
  ⟨claim_C8.2.2 3 (1/2) (by norm_num) (by norm_num),
   (claim_C8.2.1 initialStats (fun hpos => absurd hpos (by decide))).1⟩
/-- One request-handling attempt either writes nothing or appends exactly one
response to the socket. -/
theorem handle_one_sent_growth (dispatch : Request → Response) (now expiry : String)
    (c : Connection) (st : Statistics) :
    (handle_one_http_request dispatch now expiry c st).conn.sent = c.sent ∨
    ∃ w, (handle_one_http_request dispatch now expiry c st).conn.sent = c.sent ++ [w] := by
  unfold handle_one_http_request
  dsimp only
  repeat' split
  all_goals dsimp only
  all_goals first
    | exact Or.inl rfl
    | exact Or.inr ⟨_, rfl⟩

/-- One request-handling attempt can change only the error counter of the
statistics; every other field is left untouched. -/
theorem handle_one_stats_frame (dispatch : Request → Response) (now expiry : String)
    (c : Connection) (st : Statistics) :
    (handle_one_http_request dispatch now expiry c st).stats.num_requests = st.num_requests ∧
    (handle_one_http_request dispatch now expiry c st).stats.tot_time = st.tot_time ∧
    (handle_one_http_request dispatch now expiry c st).stats.avg_time = st.avg_time ∧
    (handle_one_http_request dispatch now expiry c st).stats.max_time = st.max_time ∧
    (handle_one_http_request dispatch now expiry c st).stats.active_connections =
      st.active_connections ∧
    (handle_one_http_request dispatch now expiry c st).stats.total_connections =
      st.total_connections := by
  unfold handle_one_http_request
  dsimp only
  repeat' split
  all_goals dsimp only
  all_goals simp only [send_http_response, errorObserved]
  all_goals repeat' split
  all_goals simp
/-- Claim C1 (amended): the session makes exactly one request-handling
attempt per connection — whenever that attempt returns (any outcome other
than blocking forever on a read), the socket is closed, and at most one
response is ever written on a connection; the session never loops back to
read a further request. -/
theorem claim_C1_amended : ∀ (dispatch : Request → Response) (now expiry : String)
    (d : ℚ) (c : Connection) (st : Statistics),
    ((handle_http_connection dispatch now expiry d c st).outcome ≠ .blocked →
      (handle_http_connection dispatch now expiry d c st).conn.closed = true) ∧
    ((handle_http_connection dispatch now expiry d c st).conn.sent = c.sent ∨
      ∃ w, (handle_http_connection dispatch now expiry d c st).conn.sent = c.sent ++ [w]) := by
  intro dispatch now expiry d c st
  unfold handle_http_connection
  dsimp only
  split
  · exact ⟨fun h => absurd rfl h, handle_one_sent_growth dispatch now expiry c (sessionStarted st)⟩
  · exact ⟨fun _ => rfl, handle_one_sent_growth dispatch now expiry c (sessionStarted st)⟩
  · exact ⟨fun _ => rfl, handle_one_sent_growth dispatch now expiry c (sessionStarted st)⟩

/-- Claim C1 counterexample: a connection that has two complete pipelined
requests buffered and a dispatch hook that answers 200 gets exactly one
(successful) response, after which the session closes the socket with the
second request still unread — refuting "never closes the connection after
serving a single successful request". -/
theorem claim_C1_counterexample :
    (handle_http_connection dispatchConst200 "NOW" "EXP" 0 connTwoRequests
        initialStats).conn.sent.length = 1 ∧
    List.isPrefixOf (strEncode "HTTP/1.1 200 OK")
      ((handle_http_connection dispatchConst200 "NOW" "EXP" 0 connTwoRequests
        initialStats).conn.sent.flatten) = true ∧
    (handle_http_connection dispatchConst200 "NOW" "EXP" 0 connTwoRequests
        initialStats).conn.closed = true ∧
    (handle_http_connection dispatchConst200 "NOW" "EXP" 0 connTwoRequests
        initialStats).conn.leftover = strEncode "GET /b HTTP/1.1\r\n\r\n" := by
  refine ⟨rfl, rfl, rfl, rfl⟩

/-- Concrete instantiation of claim C1's amended statement on a connection
whose peer closes immediately. -/
theorem claim_C1_witness :
    (handle_http_connection dispatchConst200 "NOW" "EXP" 1
        { events := [RecvEvent.chunk []] } initialStats).conn.closed = true ∧
    ((handle_http_connection dispatchConst200 "NOW" "EXP" 1
        { events := [RecvEvent.chunk []] } initialStats).conn.sent =
      ({ events := [RecvEvent.chunk []] } : Connection).sent ∨
      ∃ w, (handle_http_connection dispatchConst200 "NOW" "EXP" 1
        { events := [RecvEvent.chunk []] } initialStats).conn.sent =
        ({ events := [RecvEvent.chunk []] } : Connection).sent ++ [w]) :=
  ⟨(claim_C1_amended dispatchConst200 "NOW" "EXP" 1 _ initialStats).1 (by decide),
   (claim_C1_amended dispatchConst200 "NOW" "EXP" 1 _ initialStats).2⟩
/-- Claim C4: when the received head has no lines, or its request line does
not split into exactly three whitespace-separated tokens, the server sends a
400 response without reading a body and without invoking the dispatch hook,
and the error counter is incremented exactly once. -/
theorem claim_C4 : ∀ (dispatch : Request → Response) (now expiry : String)
    (hb : ByteStr) (h : String) (evs : List RecvEvent) (sent : List ByteStr)
    (k : Int) (st : Statistics),
    findSepL delimB (hb ++ delimB) = some (hb, []) →
    strDecode hb = some h →
    (pySplitLines h = [] ∨
      ∃ l0 hdrs, pySplitLines h = l0 :: hdrs ∧ (pySplitWS l0).length ≠ 3) →
    (handle_one_http_request dispatch now expiry
        { leftover := hb ++ delimB, events := evs, sent := sent, closed := false,
          num_requests := k } st).dispatched = none ∧
    (handle_one_http_request dispatch now expiry
        { leftover := hb ++ delimB, events := evs, sent := sent, closed := false,
          num_requests := k } st).bodyRead = false ∧
    (handle_one_http_request dispatch now expiry
        { leftover := hb ++ delimB, events := evs, sent := sent, closed := false,
          num_requests := k } st).stats.num_errors = st.num_errors + 1 ∧
    ∃ body, (handle_one_http_request dispatch now expiry
        { leftover := hb ++ delimB, events := evs, sent := sent, closed := false,
          num_requests := k } st).conn.sent = sent ++
      [responseWire now expiry
        { code := "400 BAD REQUEST", mime_type := some "text/plain",
          body := .strBody body }] := by
  intro dispatch now expiry hb h evs sent k st hfind hdec hbad
  have hstep : readBlankStep (hb ++ delimB) evs = some (.ok h, [], evs) := by
    unfold readBlankStep
    rw [hfind]
    dsimp only
    rw [hdec]
  have hread : read_until_blank_line (hb ++ delimB) evs = (.ok h, [], evs) := by
    unfold read_until_blank_line
    simp only [readUntilBlankF, hstep]
  unfold handle_one_http_request
  dsimp only
  rw [hread]
  dsimp only
  have h400 : pyStartsWith "400 BAD REQUEST" "200 " = false := rfl
  rcases hbad with hnil | ⟨l0, hdrs, hcons, hlen⟩
  · rw [hnil]
    exact ⟨rfl, rfl, by simp [send_http_response, errorObserved, h400],
      ⟨"You need a request-line!", rfl⟩⟩
  · rw [hcons]
    dsimp only
    rcases hws : pySplitWS l0 with _ | ⟨a1, _ | ⟨a2, _ | ⟨a3, _ | ⟨a4, tl⟩⟩⟩⟩
    · exact ⟨rfl, rfl, by simp [send_http_response, errorObserved, h400],
        ⟨"Your request-line is malformed!", rfl⟩⟩
    · exact ⟨rfl, rfl, by simp [send_http_response, errorObserved, h400],
        ⟨"Your request-line is malformed!", rfl⟩⟩
    · exact ⟨rfl, rfl, by simp [send_http_response, errorObserved, h400],
        ⟨"Your request-line is malformed!", rfl⟩⟩
    · exact absurd (by simp [hws]) hlen
    · exact ⟨rfl, rfl, by simp [send_http_response, errorObserved, h400],
        ⟨"Your request-line is malformed!", rfl⟩⟩

/-- Concrete instantiation of claim C4 on the two-token request line
`"GET /foo"`. -/
theorem claim_C4_witness :
    (handle_one_http_request dispatchConst200 "NOW" "EXP"
        { leftover := strEncode "GET /foo" ++ delimB, events := [], sent := [],
          closed := false, num_requests := 0 } initialStats).dispatched = none ∧
    (handle_one_http_request dispatchConst200 "NOW" "EXP"
        { leftover := strEncode "GET /foo" ++ delimB, events := [], sent := [],
          closed := false, num_requests := 0 } initialStats).bodyRead = false ∧
    (handle_one_http_request dispatchConst200 "NOW" "EXP"
        { leftover := strEncode "GET /foo" ++ delimB, events := [], sent := [],
          closed := false, num_requests := 0 } initialStats).stats.num_errors =
      initialStats.num_errors + 1 ∧
    ∃ body, (handle_one_http_request dispatchConst200 "NOW" "EXP"
        { leftover := strEncode "GET /foo" ++ delimB, events := [], sent := [],
          closed := false, num_requests := 0 } initialStats).conn.sent = [] ++
      [responseWire "NOW" "EXP"
        { code := "400 BAD REQUEST", mime_type := some "text/plain",
          body := .strBody body }] :=
  claim_C4 dispatchConst200 "NOW" "EXP" (strEncode "GET /foo") "GET /foo" [] [] 0
    initialStats (by decide) (by decide)
    (Or.inr ⟨"GET /foo", [], by decide, by decide⟩)
/-- Claim C5: the path rewrite of `handle_one_http_request` splits at the
first `?` and percent-decodes only the part before it, reattaching the
untouched query string (a path without `?` is decoded whole); in particular
the head `GET /x?y=1%20z HTTP/1.1` with `Content-Length: 0` reaches dispatch
with path exactly `/x?y=1%20z`. -/
theorem claim_C5 :
    (∀ p : String, decodePath p =
      if p.data.contains '?' then
        unquote (String.mk (p.data.takeWhile (fun c => c != '?'))) ++ "?" ++
          String.mk ((p.data.dropWhile (fun c => c != '?')).drop 1)
      else unquote p) ∧
    (handle_one_http_request dispatchConst200 "NOW" "EXP"
        { leftover := strEncode "GET /x?y=1%20z HTTP/1.1\r\nContent-Length: 0\r\n\r\n" }
        initialStats).dispatched.map Request.path = some "/x?y=1%20z" := by
  constructor
  · intro p
    have hq : ("?" : String).data = ['?'] := rfl
    have hf := findSepL_single '?' p.data
    unfold decodePath pyContains pySplitOnce
    rw [hq, hf]
    by_cases hc : '?' ∈ p.data
    · simp [hc]
    · simp [hc]
  · decide
/-- Claim C9: a well-formed request line with a `Content-Length` header whose
value `int()` cannot parse makes the body-reading step raise an uncaught
`ValueError`: no response is written and the request/timing statistics stay
untouched, yet the `finally` block still closes the socket and the
active-connection counter nets back to its initial value (incremented once at
session start, decremented exactly once at session end). -/
theorem claim_C9 : ∀ (dispatch : Request → Response) (now expiry : String) (d : ℚ)
    (hb : ByteStr) (h l0 : String) (hdrs : List String) (m p v nstr : String)
    (evs : List RecvEvent) (sent : List ByteStr) (k : Int) (st : Statistics),
    findSepL delimB (hb ++ delimB) = some (hb, []) →
    strDecode hb = some h →
    pySplitLines h = l0 :: hdrs →
    pySplitWS l0 = [m, p, v] →
    get_header_value hdrs "Transfer-Encoding" ≠ some "chunked" →
    get_header_value hdrs "Content-Length" = some nstr →
    pyIntParse nstr = none →
    (handle_http_connection dispatch now expiry d
        { leftover := hb ++ delimB, events := evs, sent := sent, closed := false,
          num_requests := k } st).outcome = .raisedValueError ∧
    (handle_http_connection dispatch now expiry d
        { leftover := hb ++ delimB, events := evs, sent := sent, closed := false,
          num_requests := k } st).conn.sent = sent ∧
    (handle_http_connection dispatch now expiry d
        { leftover := hb ++ delimB, events := evs, sent := sent, closed := false,
          num_requests := k } st).conn.closed = true ∧
    (handle_http_connection dispatch now expiry d
        { leftover := hb ++ delimB, events := evs, sent := sent, closed := false,
          num_requests := k } st).stats.active_connections = st.active_connections ∧
    (handle_http_connection dispatch now expiry d
        { leftover := hb ++ delimB, events := evs, sent := sent, closed := false,
          num_requests := k } st).stats.num_requests = st.num_requests ∧
    (handle_http_connection dispatch now expiry d
        { leftover := hb ++ delimB, events := evs, sent := sent, closed := false,
          num_requests := k } st).stats.tot_time = st.tot_time ∧
    (handle_http_connection dispatch now expiry d
        { leftover := hb ++ delimB, events := evs, sent := sent, closed := false,
          num_requests := k } st).stats.avg_time = st.avg_time ∧
    (handle_http_connection dispatch now expiry d
        { leftover := hb ++ delimB, events := evs, sent := sent, closed := false,
          num_requests := k } st).stats.max_time = st.max_time ∧
    (handle_http_connection dispatch now expiry d
        { leftover := hb ++ delimB, events := evs, sent := sent, closed := false,
          num_requests := k } st).stats.num_errors = st.num_errors := by
  intro dispatch now expiry d hb h l0 hdrs m p v nstr evs sent k st
  intro hfind hdec hlines hws hte hcl hint
  have hstep : readBlankStep (hb ++ delimB) evs = some (.ok h, [], evs) := by
    unfold readBlankStep
    rw [hfind]
    dsimp only
    rw [hdec]
  have hread : read_until_blank_line (hb ++ delimB) evs = (.ok h, [], evs) := by
    unfold read_until_blank_line
    simp only [readUntilBlankF, hstep]
  have hone : handle_one_http_request dispatch now expiry
      { leftover := hb ++ delimB, events := evs, sent := sent, closed := false,
        num_requests := k } (sessionStarted st) =
      { conn := { leftover := [], events := evs, sent := sent, closed := false,
                  num_requests := k },
        stats := sessionStarted st, outcome := .raisedValueError } := by
    unfold handle_one_http_request
    dsimp only
    rw [hread]
    dsimp only
    rw [hlines]
    dsimp only
    rw [hws]
    dsimp only
    rw [if_neg hte]
    rw [hcl]
    dsimp only
    rw [hint]
  unfold handle_http_connection
  dsimp only
  rw [hone]
  dsimp only
  refine ⟨rfl, rfl, rfl, ?_, rfl, rfl, rfl, rfl, rfl⟩
  simp [connectionClosed, sessionStarted]

/-- Concrete instantiation of claim C9 with `Content-Length: abc`. -/
theorem claim_C9_witness :
    (handle_http_connection dispatchConst200 "NOW" "EXP" 0
        { leftover := strEncode "GET /a HTTP/1.1\r\nContent-Length: abc" ++ delimB,
          events := [], sent := [], closed := false, num_requests := 0 } initialStats).outcome = .raisedValueError ∧
    (handle_http_connection dispatchConst200 "NOW" "EXP" 0
        { leftover := strEncode "GET /a HTTP/1.1\r\nContent-Length: abc" ++ delimB,
          events := [], sent := [], closed := false, num_requests := 0 } initialStats).conn.sent = [] ∧
    (handle_http_connection dispatchConst200 "NOW" "EXP" 0
        { leftover := strEncode "GET /a HTTP/1.1\r\nContent-Length: abc" ++ delimB,
          events := [], sent := [], closed := false, num_requests := 0 } initialStats).conn.closed = true ∧
    (handle_http_connection dispatchConst200 "NOW" "EXP" 0
        { leftover := strEncode "GET /a HTTP/1.1\r\nContent-Length: abc" ++ delimB,
          events := [], sent := [], closed := false, num_requests := 0 } initialStats).stats.active_connections = initialStats.active_connections ∧
    (handle_http_connection dispatchConst200 "NOW" "EXP" 0
        { leftover := strEncode "GET /a HTTP/1.1\r\nContent-Length: abc" ++ delimB,
          events := [], sent := [], closed := false, num_requests := 0 } initialStats).stats.num_requests = initialStats.num_requests ∧
    (handle_http_connection dispatchConst200 "NOW" "EXP" 0
        { leftover := strEncode "GET /a HTTP/1.1\r\nContent-Length: abc" ++ delimB,
          events := [], sent := [], closed := false, num_requests := 0 } initialStats).stats.tot_time = initialStats.tot_time ∧
    (handle_http_connection dispatchConst200 "NOW" "EXP" 0
        { leftover := strEncode "GET /a HTTP/1.1\r\nContent-Length: abc" ++ delimB,
          events := [], sent := [], closed := false, num_requests := 0 } initialStats).stats.avg_time = initialStats.avg_time ∧
    (handle_http_connection dispatchConst200 "NOW" "EXP" 0
        { leftover := strEncode "GET /a HTTP/1.1\r\nContent-Length: abc" ++ delimB,
          events := [], sent := [], closed := false, num_requests := 0 } initialStats).stats.max_time = initialStats.max_time ∧
    (handle_http_connection dispatchConst200 "NOW" "EXP" 0
        { leftover := strEncode "GET /a HTTP/1.1\r\nContent-Length: abc" ++ delimB,
          events := [], sent := [], closed := false, num_requests := 0 } initialStats).stats.num_errors = initialStats.num_errors :=
  claim_C9 dispatchConst200 "NOW" "EXP" 0
    (strEncode "GET /a HTTP/1.1\r\nContent-Length: abc")
    "GET /a HTTP/1.1\r\nContent-Length: abc" "GET /a HTTP/1.1"
    ["Content-Length: abc"] "GET" "/a" "HTTP/1.1" "abc" [] [] 0 initialStats
    (by decide) (by decide) (by decide) (by decide) (by decide) (by decide)
    (by decide)
/-- Claim C10: whenever the single request-handling attempt returns (rather
than raising or blocking), the session updates the request counter and timing
statistics exactly once, unconditionally — also when the peer closed or timed
out before any complete request arrived and no response was sent. -/
theorem claim_C10 : ∀ (dispatch : Request → Response) (now expiry : String) (d : ℚ)
    (c : Connection) (st : Statistics),
    (handle_one_http_request dispatch now expiry c (sessionStarted st)).outcome = .done →
    (handle_http_connection dispatch now expiry d c st).stats.num_requests =
      st.num_requests + 1 ∧
    (handle_http_connection dispatch now expiry d c st).stats.tot_time =
      st.tot_time + d ∧
    (handle_http_connection dispatch now expiry d c st).stats.avg_time =
      (st.tot_time + d) / ((st.num_requests + 1 : Int) : ℚ) ∧
    (handle_http_connection dispatch now expiry d c st).stats.max_time =
      (if st.max_time < d then d else st.max_time) := by
  intro dispatch now expiry d c st hdone
  obtain ⟨h1, h2, h3, h4, h5, h6⟩ := handle_one_stats_frame dispatch now expiry c (sessionStarted st)
  have h1' : (handle_one_http_request dispatch now expiry c (sessionStarted st)).stats.num_requests
      = st.num_requests := by simpa [sessionStarted] using h1
  have h2' : (handle_one_http_request dispatch now expiry c (sessionStarted st)).stats.tot_time
      = st.tot_time := by simpa [sessionStarted] using h2
  have h4' : (handle_one_http_request dispatch now expiry c (sessionStarted st)).stats.max_time
      = st.max_time := by simpa [sessionStarted] using h4
  unfold handle_http_connection
  dsimp only
  split
  case _ heq =>
    rw [hdone] at heq
    simp at heq
  case _ heq =>
    rw [hdone] at heq
    simp at heq
  case _ heq =>
    refine ⟨?_, ?_, ?_, ?_⟩ <;>
      simp [connectionClosed, requestCompleted, h1', h2', h4']
/-- Concrete instantiation of claim C10 on a connection whose peer closes
before sending anything: no response is sent, yet the request and timing
statistics are still updated once. -/
theorem claim_C10_witness :
    (handle_http_connection dispatchConst200 "NOW" "EXP" 1
        { events := [RecvEvent.chunk []] } initialStats).stats.num_requests =
      initialStats.num_requests + 1 ∧
    (handle_http_connection dispatchConst200 "NOW" "EXP" 1
        { events := [RecvEvent.chunk []] } initialStats).stats.tot_time =
      initialStats.tot_time + 1 ∧
    (handle_http_connection dispatchConst200 "NOW" "EXP" 1
        { events := [RecvEvent.chunk []] } initialStats).stats.avg_time =
      (initialStats.tot_time + 1) / ((initialStats.num_requests + 1 : Int) : ℚ) ∧
    (handle_http_connection dispatchConst200 "NOW" "EXP" 1
        { events := [RecvEvent.chunk []] } initialStats).stats.max_time =
      (if initialStats.max_time < 1 then 1 else initialStats.max_time) :=
  claim_C10 dispatchConst200 "NOW" "EXP" 1 { events := [RecvEvent.chunk []] }
    initialStats (by decide)
